import Mathlib

/-!
Shallow embedding of the segmented-streaming controller of the Brainiac
repository: the `StreamRecoveryManager` liveness monitor, the
`SwitchableStream` segment switcher, and the continuation logic of the
`chatAction` orchestrator (its `onFinish` handler and usage accumulator).
Timestamps are milliseconds as natural numbers; JavaScript `x || d` on
numbers is modelled by `jsOr` (0 is falsy).
-/

namespace Brainiac

/-- JavaScript `v || d` for non-negative numbers: `0` is falsy. -/
def jsOr (v d : Nat) : Nat := if v = 0 then d else v

/-- The options of `StreamRecoveryManager` after the constructor merged the
caller's options over the defaults `{maxRetries: 5, timeout: 60000,
useExponentialBackoff: true}`. -/
structure MergedOptions where
  maxRetries : Nat
  timeout : Nat
  useExponentialBackoff : Bool
deriving DecidableEq

/-- The merged options used by `chatAction` (and the constructor defaults):
`maxRetries = 5`, `timeout = 60000`, backoff enabled. -/
def defaultMergedOptions : MergedOptions :=
  { maxRetries := 5, timeout := 60000, useExponentialBackoff := true }

/-- The mutable state of one `StreamRecoveryManager` instance.
`timerPending` models whether `_timeoutHandle` holds an armed timer;
`timerDuration` is the duration that timer was armed with. -/
structure RecoveryState where
  retryCount : Nat
  consecutiveFailures : Nat
  lastActivity : Nat
  lastErrorTime : Option Nat
  isActive : Bool
  timerPending : Bool
  timerDuration : Nat
deriving DecidableEq

/-- Field initializers of `StreamRecoveryManager`: counters zero, active,
no armed timer, `_lastActivity = Date.now()`. -/
def initRecoveryState (now : Nat) : RecoveryState :=
  { retryCount := 0, consecutiveFailures := 0, lastActivity := now,
    lastErrorTime := none, isActive := true, timerPending := false,
    timerDuration := 0 }

/-- `this._options.maxRetries || 5` as read inside `_handleTimeout`. -/
def effMaxRetries (o : MergedOptions) : Nat := jsOr o.maxRetries 5

/-- The duration computed by `_resetTimeout`:
`timeoutDuration = this._options.timeout || 60000`, then if
`useExponentialBackoff && retryCount > 0` it becomes
`Math.min(timeoutDuration * 2 ** retryCount, 300000)`. -/
def timeoutDuration (o : MergedOptions) (retryCount : Nat) : Nat :=
  let base := jsOr o.timeout 60000
  if o.useExponentialBackoff = true ∧ 0 < retryCount then
    min (base * 2 ^ retryCount) 300000
  else
    base

/-- `_resetTimeout`: clear any pending timer; when inactive return without
arming; otherwise arm a timer with `timeoutDuration`. -/
def resetTimeout (o : MergedOptions) (s : RecoveryState) : RecoveryState :=
  let s1 := { s with timerPending := false }
  if s1.isActive = false then s1
  else { s1 with timerPending := true,
                 timerDuration := timeoutDuration o s1.retryCount }

/-- `stop()`: mark inactive and clear the timer handle. -/
def stopMonitor (s : RecoveryState) : RecoveryState :=
  { s with isActive := false, timerPending := false }

/-- The user callbacks a `StreamRecoveryManager` can invoke. -/
inductive Callback where
  | onTimeout
  | onRecovery
  | onMaxRetriesReached
deriving DecidableEq

/-- `_handleTimeout`: bump `consecutiveFailures` and `lastErrorTime`; if
`retryCount >= (maxRetries || 5)` then `stop()` and invoke
`onMaxRetriesReached`; otherwise bump `retryCount`, invoke `onTimeout`,
re-arm via `_resetTimeout`, and invoke `onRecovery`. Returns the new state
and the callbacks invoked, in invocation order. -/
def handleTimeout (o : MergedOptions) (now : Nat) (s : RecoveryState) :
    RecoveryState × List Callback :=
  let s1 := { s with consecutiveFailures := s.consecutiveFailures + 1,
                     lastErrorTime := some now }
  if effMaxRetries o ≤ s1.retryCount then
    (stopMonitor s1, [Callback.onMaxRetriesReached])
  else
    let s2 := { s1 with retryCount := s1.retryCount + 1 }
    (resetTimeout o s2, [Callback.onTimeout, Callback.onRecovery])

/-- `reset()`: zero the counters, refresh `lastActivity`, clear
`lastErrorTime`, then `_resetTimeout()`. -/
def resetMonitor (o : MergedOptions) (now : Nat) (s : RecoveryState) :
    RecoveryState :=
  resetTimeout o { s with retryCount := 0, consecutiveFailures := 0,
                          lastActivity := now, lastErrorTime := none }

/-- `_calculateHealthScore`: `Math.max(0, 100 - 20*consecutiveFailures
- 15*retryCount - (timeSinceActivity > 30000 ? 10 : 0))`. -/
def calculateHealthScore (now : Nat) (s : RecoveryState) : Int :=
  let failurePenalty : Int := (s.consecutiveFailures : Int) * 20
  let retryPenalty : Int := (s.retryCount : Int) * 15
  let timeSinceActivity : Int := (now : Int) - (s.lastActivity : Int)
  let stalePenalty : Int := if timeSinceActivity > 30000 then 10 else 0
  max 0 (100 - failurePenalty - retryPenalty - stalePenalty)

/-- The spec's formula for the health score, written from the spec's words:
`max(0, 100 − 20×consecutiveFailures − 15×retryCount − (10 if idle > 30s
else 0))`. -/
def specHealthScore (now : Nat) (s : RecoveryState) : Int :=
  max 0 (100 - 20 * (s.consecutiveFailures : Int) - 15 * (s.retryCount : Int)
    - (if ((now : Int) - (s.lastActivity : Int)) > 30000 then 10 else 0))

/-- `isHealthy()`: health score strictly above 50 and monitor active. -/
def isHealthy (now : Nat) (s : RecoveryState) : Bool :=
  decide (50 < calculateHealthScore now s) && s.isActive

/-- The externally triggered events of a `StreamRecoveryManager`: its public
operations plus the firing of the armed `setTimeout` timer. -/
inductive MonitorEvent where
  | startMonitoring
  | updateActivity (now : Nat)
  | reportError (now : Nat)
  | stop
  | reset (now : Nat)
  | timerFires (now : Nat)
deriving DecidableEq

/-- One event applied to the monitor state, returning the callbacks invoked.
A `timerFires` event is a no-op when no timer is armed; when armed, the
timer is consumed, and the `setTimeout` closure runs `_handleTimeout` only
if `_isActive` still holds. -/
def step (o : MergedOptions) (s : RecoveryState) :
    MonitorEvent → RecoveryState × List Callback
  | .startMonitoring => (resetTimeout o s, [])
  | .updateActivity now =>
      (resetTimeout o { s with lastActivity := now, consecutiveFailures := 0 }, [])
  | .reportError now =>
      ({ s with consecutiveFailures := s.consecutiveFailures + 1,
                lastErrorTime := some now }, [])
  | .stop => (stopMonitor s, [])
  | .reset now => (resetMonitor o now s, [])
  | .timerFires now =>
      if s.timerPending = true then
        let s1 := { s with timerPending := false }
        if s1.isActive = true then handleTimeout o now s1 else (s1, [])
      else (s, [])

/-- Run a list of monitor events, collecting every callback invoked. -/
def trace (o : MergedOptions) : RecoveryState → List MonitorEvent →
    RecoveryState × List Callback
  | s, [] => (s, [])
  | s, e :: es =>
      ((trace o (step o s e).1 es).1,
       (step o s e).2 ++ (trace o (step o s e).1 es).2)

/-! ## Segment switcher (`SwitchableStream`) -/

/-- The mutable state of a `SwitchableStream`. `hasReader` models whether
`_currentReader` is non-null; `errorMessage` is the error the outward
stream's controller was put into, if any (a `TransformStreamDefaultController`
keeps the first error it is given). -/
structure SwitcherState where
  switches : Nat
  isActive : Bool
  errorCount : Nat
  maxErrors : Nat
  hasReader : Bool
  errorMessage : Option String
deriving DecidableEq

/-- Field initializers of `SwitchableStream`: zero switches, active, zero
errors, `_maxErrors = 10`, no reader, outward stream healthy. -/
def initSwitcherState : SwitcherState :=
  { switches := 0, isActive := true, errorCount := 0, maxErrors := 10,
    hasReader := false, errorMessage := none }

/-- `switchSource` on its normal path: when inactive it warns and returns
unchanged; otherwise it cancels any previous reader, takes the new stream's
reader and increments `_switches`. -/
def switchSource (s : SwitcherState) : SwitcherState :=
  if s.isActive = false then s
  else { s with hasReader := true, switches := s.switches + 1 }

/-- The message `_handleError` hands to `controller.error` at the ceiling. -/
def streamFailureMessage (count : Nat) (lastError : String) : String :=
  "Stream failed after " ++ toString count ++ " errors. Last error: " ++ lastError

/-- `_handleError`: increment `_errorCount`; if it has reached `_maxErrors`,
mark inactive and error the outward stream with `streamFailureMessage`
(a controller that is already errored keeps its first error); below the
ceiling the fault is only logged. -/
def handleError (lastError : String) (s : SwitcherState) : SwitcherState :=
  let s1 := { s with errorCount := s.errorCount + 1 }
  if s1.maxErrors ≤ s1.errorCount then
    { s1 with isActive := false,
              errorMessage :=
                match s1.errorMessage with
                | none => some (streamFailureMessage s1.errorCount lastError)
                | some m => some m }
  else s1

/-! ## Continuation orchestrator (`chatAction`) -/

/-- The `cumulativeUsage` accumulator of `chatAction`. -/
structure Usage where
  completionTokens : Nat
  promptTokens : Nat
  totalTokens : Nat
deriving DecidableEq

/-- The zero-initialised `cumulativeUsage`. -/
def zeroUsage : Usage := { completionTokens := 0, promptTokens := 0, totalTokens := 0 }

/-- A usage report as delivered to an `onFinish` handler; each field may be
absent (`usage.completionTokens || 0` in the source). -/
structure UsageReport where
  completionTokens : Option Nat
  promptTokens : Option Nat
  totalTokens : Option Nat
deriving DecidableEq

/-- The accumulation statements `cumulativeUsage.X += usage.X || 0`. -/
def addUsage (c : Usage) (r : UsageReport) : Usage :=
  { completionTokens := c.completionTokens + r.completionTokens.getD 0,
    promptTokens := c.promptTokens + r.promptTokens.getD 0,
    totalTokens := c.totalTokens + r.totalTokens.getD 0 }

/-- Folding a sequence of segment usage reports into the accumulator, one
report per finish event. -/
def accumulateUsage (init : Usage) (rs : List UsageReport) : Usage :=
  rs.foldl addUsage init

/-- The `finishReason` values of the AI SDK. Only `length` matters to the
orchestrator's branching. -/
inductive FinishReason where
  | stop
  | length
  | contentFilter
  | toolCalls
  | error
  | other
  | unknown
deriving DecidableEq

/-- What one `onFinish` invocation of `chatAction` does after accumulating
usage: write the final usage annotation and return (`finished`), throw
`Cannot continue message: Maximum segments reached` (`threwCeiling`), or
request a continuation segment via `streamText` + `mergeIntoDataStream`
(`continued`). -/
inductive OnFinishOutcome where
  | finished
  | threwCeiling
  | continued
deriving DecidableEq

/-- The `onFinish` handler of `chatAction`: first `cumulativeUsage.X +=
usage.X || 0` when a usage report is present; if `finishReason !== 'length'`
it finishes; else if `stream.switches >= MAX_RESPONSE_SEGMENTS` it throws;
else it requests a continuation. `maxSegments` stands for the
`MAX_RESPONSE_SEGMENTS` constant (imported from a module outside this
repository snapshot). -/
def onFinishStep (maxSegments : Nat) (stream : SwitcherState) (cum : Usage)
    (finishReason : FinishReason) (usage : Option UsageReport) :
    Usage × OnFinishOutcome :=
  let cum1 := match usage with
    | some u => addUsage cum u
    | none => cum
  if finishReason ≠ FinishReason.length then (cum1, OnFinishOutcome.finished)
  else if maxSegments ≤ stream.switches then (cum1, OnFinishOutcome.threwCeiling)
  else (cum1, OnFinishOutcome.continued)

/-- One segment's terminal data: its finish reason and usage report. -/
def SegmentFinish : Type := FinishReason × Option UsageReport

/-- Outcome of a whole `chatAction` run over its segments. -/
inductive RunResult where
  | completed (cum : Usage)
  | ceilingError (cum : Usage)
  | ranOut (cum : Usage)
deriving DecidableEq

/-- The orchestrator's segment loop. `chatAction` never calls
`stream.switchSource` — every continuation is merged with
`result.mergeIntoDataStream(dataStream)` — so the same unchanged
`SwitchableStream` state is consulted at every `onFinish`. -/
def chatRun (maxSegments : Nat) (stream : SwitcherState) :
    Usage → List SegmentFinish → RunResult
  | cum, [] => RunResult.ranOut cum
  | cum, (fr, u) :: rest =>
      match onFinishStep maxSegments stream cum fr u with
      | (c, OnFinishOutcome.finished) => RunResult.completed c
      | (c, OnFinishOutcome.threwCeiling) => RunResult.ceilingError c
      | (c, OnFinishOutcome.continued) => chatRun maxSegments stream c rest

/-! ## Helper lemmas -/

theorem switchSource_isActive (s : SwitcherState) :
    (switchSource s).isActive = s.isActive := by
  unfold switchSource
  by_cases h : s.isActive = false <;> simp [h]

theorem switchSource_switches (s : SwitcherState) :
    (switchSource s).switches =
      if s.isActive = true then s.switches + 1 else s.switches := by
  unfold switchSource
  cases h : s.isActive <;> simp [h]

theorem switchSource_iter (n : Nat) :
    (switchSource^[n] initSwitcherState).isActive = true ∧
      (switchSource^[n] initSwitcherState).switches = n := by
  induction n with
  | zero => simp [initSwitcherState]
  | succ k ih =>
      rw [Function.iterate_succ_apply']
      refine ⟨by rw [switchSource_isActive]; exact ih.1, ?_⟩
      rw [switchSource_switches, ih.1]
      simp [ih.2]

theorem inactive_step (o : MergedOptions) (s : RecoveryState) (e : MonitorEvent)
    (h1 : s.isActive = false) (h2 : s.timerPending = false) :
    (step o s e).1.isActive = false ∧ (step o s e).1.timerPending = false ∧
      (step o s e).2 = [] := by
  cases e <;>
    simp [step, resetTimeout, resetMonitor, stopMonitor, h1, h2]

theorem inactive_trace (o : MergedOptions) (s : RecoveryState)
    (es : List MonitorEvent) (h1 : s.isActive = false)
    (h2 : s.timerPending = false) :
    (trace o s es).1.isActive = false ∧ (trace o s es).1.timerPending = false ∧
      (trace o s es).2 = [] := by
  induction es generalizing s with
  | nil => exact ⟨h1, h2, rfl⟩
  | cons e es ih =>
      obtain ⟨a1, a2, a3⟩ := inactive_step o s e h1 h2
      obtain ⟨b1, b2, b3⟩ := ih (step o s e).1 a1 a2
      exact ⟨b1, b2, by simp [trace, a3, b3]⟩

theorem accumulateUsage_eq (init : Usage) (rs : List UsageReport) :
    accumulateUsage init rs =
      { completionTokens := init.completionTokens +
          (rs.map (fun r => r.completionTokens.getD 0)).sum,
        promptTokens := init.promptTokens +
          (rs.map (fun r => r.promptTokens.getD 0)).sum,
        totalTokens := init.totalTokens +
          (rs.map (fun r => r.totalTokens.getD 0)).sum } := by
  induction rs generalizing init with
  | nil => simp [accumulateUsage]
  | cons r rs ih =>
      have : accumulateUsage init (r :: rs) = accumulateUsage (addUsage init r) rs := by
        simp [accumulateUsage, List.foldl]
      rw [this, ih]
      simp [addUsage, Nat.add_assoc]

theorem chatRun_no_ceiling (maxSegments : Nat) (stream : SwitcherState)
    (hlt : stream.switches < maxSegments) (cum : Usage)
    (segs : List SegmentFinish) (c : Usage) :
    chatRun maxSegments stream cum segs ≠ RunResult.ceilingError c := by
  induction segs generalizing cum with
  | nil => simp [chatRun]
  | cons sf rest ih =>
      obtain ⟨fr, u⟩ := sf
      have hns : ¬ maxSegments ≤ stream.switches := Nat.not_le.mpr hlt
      by_cases hfr : fr = FinishReason.length
      · subst hfr
        simp [chatRun, onFinishStep, hns]
        exact ih _
      · simp [chatRun, onFinishStep, hfr]

/-! ## Claim theorems -/

/-- Claim C2, counterexample: the very first `switchSource` call on a fresh
`SwitchableStream` already increments the switch counter, so after one
segment `switches = 1`, not `1 - 1 = 0` as the claim states. -/
theorem c2_counterexample :
    (switchSource initSwitcherState).switches = 1 ∧
      (switchSource initSwitcherState).switches ≠ 1 - 1 := by
  decide

/-- Claim C2 (amended): every `switchSource` call on an active switcher
increments the switch counter — including the first — and a no-op on an
inactive one; after N segments handed to the switcher, `switchCount = N`. -/
theorem c2_switch_counting :
    (∀ s : SwitcherState, (switchSource s).switches =
        if s.isActive = true then s.switches + 1 else s.switches) ∧
      (∀ n : Nat, (switchSource^[n] initSwitcherState).switches = n) := by
  exact ⟨switchSource_switches, fun n => (switchSource_iter n).2⟩

/-- Claim C4: every fault while draining increments `errorCount`; strictly
below the ceiling (`maxErrors`, initialised to 10) the fault is only logged
— the switcher stays as active as it was and the outward stream is
untouched; once the count reaches the ceiling the switcher becomes inactive
and the outward stream is errored with a message built from the error count
and the last fault's description; `switchSource` on an inactive switcher is
a no-op. -/
theorem c4_error_ceiling (s : SwitcherState) (msg : String) :
    (handleError msg s).errorCount = s.errorCount + 1 ∧
      (s.errorCount + 1 < s.maxErrors →
        (handleError msg s).isActive = s.isActive ∧
          (handleError msg s).errorMessage = s.errorMessage) ∧
      (s.maxErrors ≤ s.errorCount + 1 →
        (handleError msg s).isActive = false ∧
          (s.errorMessage = none →
            (handleError msg s).errorMessage =
              some (streamFailureMessage (s.errorCount + 1) msg))) ∧
      (s.isActive = false → switchSource s = s) := by
  refine ⟨?_, ?_, ?_, ?_⟩
  · unfold handleError
    by_cases h : s.maxErrors ≤ s.errorCount + 1 <;> simp [h]
  · intro hlt
    have h : ¬ s.maxErrors ≤ s.errorCount + 1 := Nat.not_le.mpr hlt
    unfold handleError
    simp [h]
  · intro hge
    unfold handleError
    refine ⟨by simp [hge], fun hnone => by simp [hge, hnone]⟩
  · intro hinact
    unfold switchSource
    simp [hinact]

/-- Claim C4 witness: a 10th fault on a switcher with 9 accumulated errors
deactivates it; a first fault on a fresh switcher leaves it active; a
`switchSource` on a deactivated switcher changes nothing. -/
theorem c4_witness :
    (handleError "read fault" { initSwitcherState with errorCount := 9 }).isActive = false ∧
      (handleError "read fault" initSwitcherState).isActive = true ∧
      switchSource { initSwitcherState with isActive := false } =
        { initSwitcherState with isActive := false } := by
  refine ⟨((c4_error_ceiling { initSwitcherState with errorCount := 9 }
      "read fault").2.2.1 (by decide)).1, ?_, ?_⟩
  · have h := ((c4_error_ceiling initSwitcherState "read fault").2.1 (by decide)).1
    simpa [initSwitcherState] using h
  · exact (c4_error_ceiling { initSwitcherState with isActive := false }
      "read fault").2.2.2 rfl

/-- Claim C7, counterexample: on a stopped monitor, `reset()` does not re-arm
the inactivity timer — `_resetTimeout` returns without arming when the
monitor is inactive — contradicting the claim that the timer is pending
again for every monitor state including a stopped one. -/
theorem c7_counterexample :
    (resetMonitor defaultMergedOptions 0 (stopMonitor (initRecoveryState 0))).timerPending
        = false ∧
      (resetMonitor defaultMergedOptions 0
          (stopMonitor (initRecoveryState 0))).isActive = false := by
  decide

/-- Claim C7 (amended): `reset()` clears all the counters (`retryCount`,
`consecutiveFailures`, `lastErrorTimestamp`) and refreshes `lastActivity`,
but it re-arms the inactivity timer only when the monitor is still active;
a stopped monitor stays inactive with no pending timer. -/
theorem c7_reset (o : MergedOptions) (now : Nat) (s : RecoveryState) :
    (resetMonitor o now s).retryCount = 0 ∧
      (resetMonitor o now s).consecutiveFailures = 0 ∧
      (resetMonitor o now s).lastErrorTime = none ∧
      (resetMonitor o now s).lastActivity = now ∧
      (resetMonitor o now s).isActive = s.isActive ∧
      (resetMonitor o now s).timerPending = s.isActive := by
  unfold resetMonitor resetTimeout
  cases h : s.isActive <;> simp [h]

/-- Claim C8: the health score equals the spec's formula
`max(0, 100 − 20×consecutiveFailures − 15×retryCount − (10 if idle > 30s
else 0))`, and `isHealthy()` is true iff the score is strictly above 50 and
the monitor is active. -/
theorem c8_health (now : Nat) (s : RecoveryState) :
    calculateHealthScore now s = specHealthScore now s ∧
      (isHealthy now s = true ↔
        (50 < calculateHealthScore now s ∧ s.isActive = true)) := by
  constructor
  · unfold calculateHealthScore specHealthScore
    by_cases h : ((now : Int) - (s.lastActivity : Int)) > 30000 <;>
      simp [h] <;> ring_nf
  · unfold isHealthy
    simp [Bool.and_eq_true, decide_eq_true_eq]

/-- Claim C10: stopping the monitor is permanent — right after `stop()` the
monitor is inactive with no pending timer, and however many further events
(`startMonitoring`, `updateActivity`, `reportError`, `stop`, `reset`, timer
firings) are applied, it stays inactive, the timer stays unarmed, and no
callback (in particular no timeout callback) is ever invoked. -/
theorem c10_stop_permanent (o : MergedOptions) (s : RecoveryState)
    (es : List MonitorEvent) :
    (step o s MonitorEvent.stop).1.isActive = false ∧
      (step o s MonitorEvent.stop).1.timerPending = false ∧
      (trace o (step o s MonitorEvent.stop).1 es).1.isActive = false ∧
      (trace o (step o s MonitorEvent.stop).1 es).1.timerPending = false ∧
      (trace o (step o s MonitorEvent.stop).1 es).2 = [] := by
  have h1 : (step o s MonitorEvent.stop).1.isActive = false := by
    simp [step, stopMonitor]
  have h2 : (step o s MonitorEvent.stop).1.timerPending = false := by
    simp [step, stopMonitor]
  obtain ⟨a1, a2, a3⟩ := inactive_trace o _ es h1 h2
  exact ⟨h1, h2, a1, a2, a3⟩

/-- Claim C3: when the inactivity timeout fires on an active monitor with
`retryCount ≥ maxRetries`, the monitor stops (inactive, timer cleared),
invokes only the max-retries callback, and under any further events the
timer is never re-armed and no callback ever fires again (so the
max-retries callback fires exactly once); when it fires with
`retryCount < maxRetries`, `retryCount` is incremented, the timeout and
recovery callbacks are invoked, and the timer is re-armed. With the
defaults (`maxRetries = 5`) the first five consecutive firings each retry
and the sixth stops the monitor. -/
theorem c3_retry_ceiling (o : MergedOptions) (s : RecoveryState) (now : Nat)
    (hact : s.isActive = true) :
    (effMaxRetries o ≤ s.retryCount →
        (handleTimeout o now s).1.isActive = false ∧
        (handleTimeout o now s).1.timerPending = false ∧
        (handleTimeout o now s).2 = [Callback.onMaxRetriesReached] ∧
        ∀ es : List MonitorEvent,
          (trace o (handleTimeout o now s).1 es).2 = [] ∧
            (trace o (handleTimeout o now s).1 es).1.timerPending = false) ∧
      (s.retryCount < effMaxRetries o →
        (handleTimeout o now s).1.retryCount = s.retryCount + 1 ∧
        (handleTimeout o now s).2 = [Callback.onTimeout, Callback.onRecovery] ∧
        (handleTimeout o now s).1.timerPending = true) ∧
      (trace defaultMergedOptions
          (step defaultMergedOptions (initRecoveryState 0)
            MonitorEvent.startMonitoring).1
          (List.replicate 5 (MonitorEvent.timerFires 0))).1.isActive = true ∧
      (trace defaultMergedOptions
          (step defaultMergedOptions (initRecoveryState 0)
            MonitorEvent.startMonitoring).1
          (List.replicate 6 (MonitorEvent.timerFires 0))).1.isActive = false ∧
      (trace defaultMergedOptions
          (step defaultMergedOptions (initRecoveryState 0)
            MonitorEvent.startMonitoring).1
          (List.replicate 6 (MonitorEvent.timerFires 0))).2 =
        [Callback.onTimeout, Callback.onRecovery, Callback.onTimeout,
         Callback.onRecovery, Callback.onTimeout, Callback.onRecovery,
         Callback.onTimeout, Callback.onRecovery, Callback.onTimeout,
         Callback.onRecovery, Callback.onMaxRetriesReached] := by
  refine ⟨?_, ?_, by decide, by decide, by decide⟩
  · intro hge
    have hstate : (handleTimeout o now s).1 =
        stopMonitor { s with consecutiveFailures := s.consecutiveFailures + 1,
                             lastErrorTime := some now } := by
      unfold handleTimeout
      simp [hge]
    have hcb : (handleTimeout o now s).2 = [Callback.onMaxRetriesReached] := by
      unfold handleTimeout
      simp [hge]
    refine ⟨by rw [hstate]; rfl, by rw [hstate]; rfl, hcb, fun es => ?_⟩
    have h1 : (handleTimeout o now s).1.isActive = false := by rw [hstate]; rfl
    have h2 : (handleTimeout o now s).1.timerPending = false := by rw [hstate]; rfl
    obtain ⟨a1, a2, a3⟩ := inactive_trace o _ es h1 h2
    exact ⟨a3, a2⟩
  · intro hlt
    have h : ¬ effMaxRetries o ≤ s.retryCount := Nat.not_le.mpr hlt
    unfold handleTimeout
    simp [h, resetTimeout, hact]

/-- Claim C3 witness: with the default options, a timeout firing at
`retryCount = 5` (the ceiling) deactivates the monitor, and a firing at
`retryCount = 0` increments the counter to 1. -/
theorem c3_witness :
    (handleTimeout defaultMergedOptions 0
        { initRecoveryState 0 with retryCount := 5 }).1.isActive = false ∧
      (handleTimeout defaultMergedOptions 0 (initRecoveryState 0)).1.retryCount = 1 := by
  refine ⟨((c3_retry_ceiling defaultMergedOptions
      { initRecoveryState 0 with retryCount := 5 } 0 rfl).1 (by decide)).1, ?_⟩
  exact ((c3_retry_ceiling defaultMergedOptions (initRecoveryState 0) 0 rfl).2.1
    (by decide)).1

/-- Claim C5, counterexample: with backoff enabled and a base timeout of
400000 ms, the duration re-armed at `retryCount = 0` is 400000 ms — the
code applies the 300000 ms cap only when `retryCount > 0` — whereas the
claimed formula `min(baseTimeout × 2^k, 300000)` gives 300000 ms. -/
theorem c5_counterexample :
    timeoutDuration
        { maxRetries := 5, timeout := 400000, useExponentialBackoff := true } 0
      = 400000 ∧
      timeoutDuration
          { maxRetries := 5, timeout := 400000, useExponentialBackoff := true } 0
        ≠ min (400000 * 2 ^ 0) 300000 := by
  decide

/-- Claim C5 (amended): with exponential backoff enabled, the re-armed
duration for retryCount `k ≥ 1` is `min(baseTimeout × 2^k, 300000)` where
`baseTimeout = timeout || 60000`; at `k = 0` it is the uncapped base
timeout; with backoff disabled it is always the base timeout. -/
theorem c5_backoff (o : MergedOptions) (k : Nat) :
    (o.useExponentialBackoff = true → 1 ≤ k →
        timeoutDuration o k = min (jsOr o.timeout 60000 * 2 ^ k) 300000) ∧
      timeoutDuration o 0 = jsOr o.timeout 60000 ∧
      (o.useExponentialBackoff = false →
        timeoutDuration o k = jsOr o.timeout 60000) := by
  refine ⟨fun hb hk => ?_, ?_, fun hb => ?_⟩
  · unfold timeoutDuration
    simp [hb, Nat.lt_of_lt_of_le Nat.zero_lt_one hk]
  · unfold timeoutDuration
    simp
  · unfold timeoutDuration
    simp [hb]

/-- Claim C5 witness: with the defaults (base 60000, backoff on), the
duration at retry 2 is `min(60000 × 4, 300000) = 240000`; with backoff
disabled it is the base timeout at retry 3. -/
theorem c5_witness :
    timeoutDuration defaultMergedOptions 2 = min (60000 * 2 ^ 2) 300000 ∧
      timeoutDuration
          { maxRetries := 5, timeout := 60000, useExponentialBackoff := false } 3
        = 60000 := by
  constructor
  · exact (c5_backoff defaultMergedOptions 2).1 rfl (by decide)
  · exact (c5_backoff
      { maxRetries := 5, timeout := 60000, useExponentialBackoff := false } 3).2.2 rfl

/-- Claim C1, counterexample: take `MAX_RESPONSE_SEGMENTS = 2` and a stream
whose switch counter is `maxSegments − 1 = 1`. A segment finishing with
reason `length` then yields a further continuation request, not the ceiling
error: the code's guard is `stream.switches >= MAX_RESPONSE_SEGMENTS`, not
`>= MAX_RESPONSE_SEGMENTS − 1`. -/
theorem c1_counterexample :
    (onFinishStep 2 { initSwitcherState with switches := 1 } zeroUsage
        FinishReason.length none).2 = OnFinishOutcome.continued ∧
      (onFinishStep 2 { initSwitcherState with switches := 1 } zeroUsage
          FinishReason.length none).2 ≠ OnFinishOutcome.threwCeiling := by
  decide

/-- Claim C1 (amended): the orchestrator never requests segment n+1 once
`switchCount ≥ MAX_SEGMENTS`: when a segment finishes with reason `length`
and the stream's switch counter has reached `maxSegments`, the `onFinish`
handler throws the maximum-segments error and requests no continuation;
below the ceiling it requests a continuation; for any finish reason other
than `length` it finishes normally. -/
theorem c1_segment_ceiling (maxSegments : Nat) (stream : SwitcherState)
    (cum : Usage) (u : Option UsageReport) :
    (maxSegments ≤ stream.switches →
        (onFinishStep maxSegments stream cum FinishReason.length u).2 =
          OnFinishOutcome.threwCeiling) ∧
      (stream.switches < maxSegments →
        (onFinishStep maxSegments stream cum FinishReason.length u).2 =
          OnFinishOutcome.continued) ∧
      ∀ fr : FinishReason, fr ≠ FinishReason.length →
        (onFinishStep maxSegments stream cum fr u).2 = OnFinishOutcome.finished := by
  refine ⟨fun hge => ?_, fun hlt => ?_, fun fr hfr => ?_⟩
  · unfold onFinishStep
    simp [hge]
  · unfold onFinishStep
    simp [Nat.not_le.mpr hlt]
  · unfold onFinishStep
    simp [hfr]

/-- Claim C1 witness: with `maxSegments = 2`, a `length` finish at
`switches = 2` throws the ceiling error, at `switches = 1` it continues,
and a `stop` finish at `switches = 2` finishes normally. -/
theorem c1_witness :
    (onFinishStep 2 { initSwitcherState with switches := 2 } zeroUsage
        FinishReason.length none).2 = OnFinishOutcome.threwCeiling ∧
      (onFinishStep 2 { initSwitcherState with switches := 1 } zeroUsage
          FinishReason.length none).2 = OnFinishOutcome.continued ∧
      (onFinishStep 2 { initSwitcherState with switches := 2 } zeroUsage
          FinishReason.stop none).2 = OnFinishOutcome.finished := by
  refine ⟨(c1_segment_ceiling 2 { initSwitcherState with switches := 2 }
      zeroUsage none).1 (by decide),
    (c1_segment_ceiling 2 { initSwitcherState with switches := 1 }
      zeroUsage none).2.1 (by decide),
    (c1_segment_ceiling 2 { initSwitcherState with switches := 2 }
      zeroUsage none).2.2 FinishReason.stop (by decide)⟩

/-- Claim C9: `chatAction` never calls `switchSource` on the
`SwitchableStream` it creates (continuations are merged with
`mergeIntoDataStream`), so the stream it consults in `onFinish` is always
its initial state with `switches = 0`, and for `MAX_RESPONSE_SEGMENTS ≥ 1`
no run over any sequence of segment finishes ever throws the
maximum-segments error. -/
theorem c9_no_ceiling_throw (maxSegments : Nat) (h : 1 ≤ maxSegments)
    (cum : Usage) (segs : List SegmentFinish) (c : Usage) :
    initSwitcherState.switches = 0 ∧
      chatRun maxSegments initSwitcherState cum segs ≠ RunResult.ceilingError c := by
  refine ⟨rfl, chatRun_no_ceiling maxSegments initSwitcherState ?_ cum segs c⟩
  show initSwitcherState.switches < maxSegments
  exact Nat.lt_of_lt_of_le Nat.zero_lt_one h

/-- Claim C9 witness: with `maxSegments = 2`, a run of two truncated
segments followed by exhaustion never produces the ceiling error. -/
theorem c9_witness :
    chatRun 2 initSwitcherState zeroUsage
        [(FinishReason.length, none), (FinishReason.length, none)]
      ≠ RunResult.ceilingError zeroUsage := by
  exact (c9_no_ceiling_throw 2 (by decide) zeroUsage
    [(FinishReason.length, none), (FinishReason.length, none)] zeroUsage).2

/-- Claim C6: usage accumulation is additive and monotone — starting from
the zeroed accumulator, the totals after a list of segment reports equal
the element-wise sums of the reports (each report added exactly once, at
its finish event), the result is independent of the order of the reports,
and a single addition never decreases any component. -/
theorem c6_usage_additivity (rs rs' : List UsageReport) (c : Usage)
    (r : UsageReport) :
    (accumulateUsage zeroUsage rs).completionTokens =
        (rs.map (fun x => x.completionTokens.getD 0)).sum ∧
      (accumulateUsage zeroUsage rs).promptTokens =
        (rs.map (fun x => x.promptTokens.getD 0)).sum ∧
      (accumulateUsage zeroUsage rs).totalTokens =
        (rs.map (fun x => x.totalTokens.getD 0)).sum ∧
      (rs.Perm rs' → accumulateUsage zeroUsage rs = accumulateUsage zeroUsage rs') ∧
      c.completionTokens ≤ (addUsage c r).completionTokens ∧
      c.promptTokens ≤ (addUsage c r).promptTokens ∧
      c.totalTokens ≤ (addUsage c r).totalTokens := by
  refine ⟨?_, ?_, ?_, fun hperm => ?_, ?_, ?_, ?_⟩
  · rw [accumulateUsage_eq]; simp [zeroUsage]
  · rw [accumulateUsage_eq]; simp [zeroUsage]
  · rw [accumulateUsage_eq]; simp [zeroUsage]
  · rw [accumulateUsage_eq, accumulateUsage_eq]
    have h1 := (hperm.map (fun x => x.completionTokens.getD 0)).sum_eq
    have h2 := (hperm.map (fun x => x.promptTokens.getD 0)).sum_eq
    have h3 := (hperm.map (fun x => x.totalTokens.getD 0)).sum_eq
    rw [h1, h2, h3]
  · exact Nat.le_add_right _ _
  · exact Nat.le_add_right _ _
  · exact Nat.le_add_right _ _

/-- Claim C6 witness: two concrete reports accumulate to their element-wise
sum in either order. -/
theorem c6_witness :
    accumulateUsage zeroUsage
        [{ completionTokens := some 3, promptTokens := some 5, totalTokens := some 8 },
         { completionTokens := some 4, promptTokens := none, totalTokens := some 4 }]
      = accumulateUsage zeroUsage
        [{ completionTokens := some 4, promptTokens := none, totalTokens := some 4 },
         { completionTokens := some 3, promptTokens := some 5, totalTokens := some 8 }] := by
  exact (c6_usage_additivity
    [{ completionTokens := some 3, promptTokens := some 5, totalTokens := some 8 },
     { completionTokens := some 4, promptTokens := none, totalTokens := some 4 }]
    [{ completionTokens := some 4, promptTokens := none, totalTokens := some 4 },
     { completionTokens := some 3, promptTokens := some 5, totalTokens := some 8 }]
    zeroUsage
    { completionTokens := none, promptTokens := none, totalTokens := none }).2.2.2.1
    (List.Perm.swap _ _ _)

end Brainiac
